import Mathlib

/-!
# Verification of the package-intel Registry Intelligence Engine

Shallow embedding of the core logic of the package-intel MCP server
(`src/tools/*.ts`, `src/config.ts`, `src/types.ts`) in Lean 4, together
with proofs about the spec's claims.

Modelling conventions:
* JS strings are Lean `String`s; where character-level structure matters
  (the repository-URL normalizer, the prerelease regex, keyword
  tokenization, trimming) we work on `List Char` via `String.toList`.
* ISO-8601 timestamp strings are represented by their parsed epoch value
  in milliseconds (`Int`).  The data-model invariant of the spec requires
  every date to be parseable, and for same-format UTC ISO strings
  lexicographic string order coincides with chronological order, so this
  identification is faithful for every ordering-related claim.
* JS `Array.prototype.sort` with a consistent comparator is specified to
  be stable; the stable-sorted result is unique, and Mathlib's
  `List.insertionSort` is a stable sort, so it is used as the model.
* IEEE-754 float arithmetic is modelled by exact rational/integer
  arithmetic.  For the maintenance-score weighted sum the agreement of
  both models was checked at every reachable input (sub-scores range
  over {0,1,2}); rationals are always built with `mkRat` so that they
  evaluate inside the kernel.
* `fetch` is factored out: each adapter takes the upstream outcome
  (parsed JSON or a classified transport error) as an explicit argument;
  response metadata (`retrieved_at` timestamps, source URLs, pagination)
  is orthogonal to every claim and is omitted.  Error-message texts are
  abridged (no claim depends on them).
-/

namespace PackageIntel

/-! ## JS-style primitives -/

/-- Truthiness of a JS string: the empty string is falsy. -/
def jsTruthy (s : String) : Bool := s ≠ ""

/-- Model of `a || b` for two optional JS strings (`null`/`undefined`
and `""` are falsy; the right operand is returned unchanged). -/
def jsOrS : Option String → Option String → Option String
  | some s, b => if s = "" then b else some s
  | none, b => b

/-- Characters treated as whitespace by the model of `String.prototype.trim`. -/
def jsWs (c : Char) : Bool := c = ' ' || c = '\t' || c = '\n' || c = '\r'

/-- Model of `String.prototype.trim` (common whitespace only). -/
def jsTrim (s : String) : String :=
  (((s.toList.dropWhile jsWs).reverse.dropWhile jsWs).reverse).asString

/-! ## Shared enumerations (src/types.ts) -/

/-- The three supported ecosystems (`type Ecosystem` in types.ts). -/
inductive Ecosystem
  | npm
  | pypi
  | crates
deriving DecidableEq

/-- Wire tag of an ecosystem. -/
def Ecosystem.tag : Ecosystem → String
  | .npm => "npm"
  | .pypi => "pypi"
  | .crates => "crates"

/-- Runtime ecosystem argument: one of the three known tags or an
unrecognized value (the `default` branch of each dispatcher). -/
inductive EcoInput
  | known (e : Ecosystem)
  | unknown (s : String)
deriving DecidableEq

/-- Error taxonomy (`type ErrorCode` in types.ts). -/
inductive ErrorCode
  | INVALID_INPUT
  | UPSTREAM_ERROR
  | RATE_LIMITED
  | TIMEOUT
  | PARSE_ERROR
  | INTERNAL_ERROR
deriving DecidableEq

/-- Response envelope (`ApiResponse<T>` in types.ts), metadata omitted.
Error details are modelled as an association list of string pairs. -/
inductive ApiResponse (α : Type)
  | ok (data : α)
  | err (code : ErrorCode) (message : String) (details : List (String × String))
deriving DecidableEq

/-- Code of a failure envelope, if any. -/
def ApiResponse.errCode : ApiResponse α → Option ErrorCode
  | .ok _ => none
  | .err c _ _ => some c

/-- Details of a failure envelope (empty for successes). -/
def ApiResponse.errDetails : ApiResponse α → List (String × String)
  | .ok _ => []
  | .err _ _ d => d

/-- Outcome of `fetchRegistry`: a network abort (timeout), an HTTP error
status carried on the thrown error, or some other transport failure. -/
inductive FetchError
  | abortError
  | http (status : Nat)
  | network (message : String)
deriving DecidableEq

/-! ## Prerelease classifier (release-timeline.ts, `isPrerelease`)

The source tests the version against
`/[-.]?(alpha|beta|rc|dev|pre|canary|next|snapshot|preview|nightly|a|b)\d*[-.]?/i`.
Since the leading separator, the trailing digits and the trailing
separator are all optional, `RegExp.test` succeeds exactly when one of
the twelve alternation keywords occurs case-insensitively as a substring
of the version. -/

/-- Model of `pat` occurring as a contiguous substring of `l`. -/
def hasSub (l pat : List Char) : Bool :=
  match l with
  | [] => pat.isEmpty
  | _ :: t => pat.isPrefixOf l || hasSub t pat

/-- The alternation keywords of the prerelease regex. -/
def prereleaseKeywords : List String :=
  ["alpha", "beta", "rc", "dev", "pre", "canary", "next", "snapshot",
   "preview", "nightly", "a", "b"]

/-- Model of `isPrerelease` (release-timeline.ts lines 377-381). -/
def isPrerelease (version : String) : Bool :=
  prereleaseKeywords.any fun k =>
    hasSub (version.toList.map Char.toLower) k.toList

/-! ## Maintenance ratings and scoring (maintenance-signals.ts) -/

/-- Rating scale (`type MaintenanceRating` in types.ts). -/
inductive MaintenanceRating
  | good
  | fair
  | poor
deriving DecidableEq

/-- Numeric sub-score of a rating (`scores` map in `calculateOverallScore`). -/
def ratingScore : MaintenanceRating → Nat
  | .good => 2
  | .fair => 1
  | .poor => 0

/-- Model of `calculateOverallScore` (maintenance-signals.ts lines 103-124).
The source computes `scores[recency]*0.5 + scores[frequency]*0.3 +
scores[maturity]*0.2` in floats and compares against `1.5` and `0.7`;
here the same weighted sum is formed exactly as `(5r+3f+2m)/10`.  The
float computation agrees with the exact rational one at all 27 reachable
inputs (checked exhaustively; the nearest ties round so that equality
with the thresholds is preserved). -/
def calculateOverallScore (recency frequency maturity : MaintenanceRating)
    (isDeprecated : Bool) : MaintenanceRating :=
  if isDeprecated then .poor
  else
    let weightedScore : ℚ :=
      mkRat (5 * ratingScore recency + 3 * ratingScore frequency +
        2 * ratingScore maturity) 10
    if mkRat 3 2 ≤ weightedScore then .good
    else if mkRat 7 10 ≤ weightedScore then .fair
    else .poor

/-- Model of `daysBetween` (maintenance-signals.ts lines 65-68):
`Math.floor(|t1 - t2| / 86400000)`. -/
def daysBetween (date1 date2 : Int) : Nat :=
  (date1 - date2).natAbs / 86400000

/-- Model of `rateRecency` (maintenance-signals.ts lines 74-78). -/
def rateRecency (daysSinceLastRelease : Nat) : MaintenanceRating :=
  if daysSinceLastRelease < 90 then .good
  else if daysSinceLastRelease < 365 then .fair
  else .poor

/-- Recency with the `Infinity` sentinel (`none` = no known release):
`Infinity` fails both `<` tests, so it rates poor. -/
def rateRecencyOpt : Option Nat → MaintenanceRating
  | none => .poor
  | some d => rateRecency d

/-- Model of `rateFrequency` (maintenance-signals.ts lines 84-88). -/
def rateFrequency (releasesPerYear : ℚ) : MaintenanceRating :=
  if 4 ≤ releasesPerYear then .good
  else if 1 ≤ releasesPerYear then .fair
  else .poor

/-- Model of `rateMaturity` (maintenance-signals.ts lines 94-98). -/
def rateMaturity (totalVersions : Nat) : MaintenanceRating :=
  if 10 ≤ totalVersions then .good
  else if 3 ≤ totalVersions then .fair
  else .poor

/-- Ascending sort of timestamps, as `[...releaseDates].sort((a,b) => a-b)`. -/
def sortDatesAsc (dates : List Int) : List Int :=
  List.insertionSort (· ≤ ·) dates

/-- Model of `calculateReleasesPerYear` (maintenance-signals.ts lines
129-140).  The span in whole days between the earliest and the latest
release is `daysBetween sorted.head sorted.last`; the source computes
`yearsSpan = span/365` and returns `length * 10` when `yearsSpan < 0.1`,
else `length / yearsSpan`.  `length / (span/365)` is written as the
exact rational `mkRat (length * 365) span` so the kernel can evaluate
it. -/
def calculateReleasesPerYear (releaseDates : List Int) : ℚ :=
  if releaseDates.length < 2 then 0
  else
    let sorted := sortDatesAsc releaseDates
    let firstRelease := sorted.headD 0
    let lastRelease := sorted.getLastD 0
    let spanDays := daysBetween firstRelease lastRelease
    if mkRat spanDays 365 < mkRat 1 10 then ((releaseDates.length * 10 : ℕ) : ℚ)
    else mkRat (releaseDates.length * 365) spanDays

/-- Model of `Math.round(q * 100) / 100` on exact rationals
(`Math.round x = ⌊x + 1/2⌋`). -/
def jsRound2 (q : ℚ) : ℚ :=
  mkRat (Int.fdiv (200 * q.num + q.den) (2 * q.den)) 100

/-! ## Configuration (src/config.ts) -/

/-- `DEFAULTS.releaseTimelineLimit`. -/
def defaultTimelineLimit : Int := 20

/-- `DEFAULTS.maxReleaseTimelineLimit`. -/
def maxTimelineLimit : Int := 100

/-! ## Timeline limit handling (release-timeline.ts lines 631-638) -/

/-- A JSON `limit` argument: absent, a number, or a non-numeric value.
JSON numbers carry no NaN/Infinity and the code only compares and
slices with the limit, so numeric limits are modelled as integers. -/
inductive JsLimit
  | absent
  | num (n : Int)
  | other
deriving DecidableEq

/-- Model of the limit validation in `releaseTimeline`:
`limit = raw ?? 20; if (typeof limit !== 'number' || limit < 1) limit = 20;
if (limit > 100) limit = 100`. -/
def clampLimit (raw : JsLimit) : Int :=
  let limit : Int :=
    match raw with
    | .absent => defaultTimelineLimit
    | .other => defaultTimelineLimit
    | .num n => if n < 1 then defaultTimelineLimit else n
  if limit > maxTimelineLimit then maxTimelineLimit else limit

/-! ## Raw registry response types (src/types.ts lines 117-194) -/

/-- An npm `repository` field: a bare string or a `{type, url}` object. -/
inductive NpmRepo
  | str (s : String)
  | obj (kind url : String)
deriving DecidableEq

/-- An npm per-version `license` field: a bare string or a `{type}` object. -/
inductive NpmLicense
  | str (s : String)
  | obj (kind : String)
deriving DecidableEq

/-- Per-version metadata of an npm package document. -/
structure NpmVersionData where
  description : Option String
  homepage : Option String
  repository : Option NpmRepo
  license : Option NpmLicense
  keywords : Option (List String)
  deprecated : Option String
deriving DecidableEq

/-- An npm package document (`NpmPackageResponse`).  `dist_tags_latest`
models `data['dist-tags']?.latest`; `versions` and `time` model the JS
objects as association lists in property order.  Timestamps in `time`
are parsed epoch values. -/
structure NpmPackageResponse where
  name : String
  dist_tags_latest : Option String
  versions : List (String × NpmVersionData)
  time : List (String × Int)
  description : Option String
  homepage : Option String
  repository : Option NpmRepo
  license : Option String
  keywords : Option (List String)
deriving DecidableEq

/-- One PyPI upload artifact.  Timestamps are parsed epoch values; a
missing or empty (falsy) timestamp string is `none`. -/
structure PypiFile where
  upload_time : Option Int
  upload_time_iso_8601 : Option Int
deriving DecidableEq

/-- The `info` record of a PyPI package document. -/
structure PypiInfo where
  name : String
  version : String
  summary : Option String
  home_page : Option String
  project_url : Option String
  project_urls : Option (List (String × String))
  license : Option String
  keywords : Option String
  classifiers : Option (List String)
deriving DecidableEq

/-- A PyPI package document (`PypiPackageResponse`). -/
structure PypiPackageResponse where
  info : PypiInfo
  releases : List (String × List PypiFile)
deriving DecidableEq

/-- One crates.io version record. -/
structure CrateVersion where
  num : String
  created_at : Int
  yanked : Bool
  license : Option String
deriving DecidableEq

/-- The `crate` record of a crates.io document. -/
structure CrateInfo where
  name : String
  description : Option String
  homepage : Option String
  repository : Option String
  max_version : String
  max_stable_version : Option String
  downloads : Nat
  recent_downloads : Option Nat
  keywords : List String
deriving DecidableEq

/-- A crates.io package document (`CratesPackageResponse`). -/
structure CratesPackageResponse where
  crate : CrateInfo
  versions : List CrateVersion
deriving DecidableEq

/-- The upstream world an engine call runs against: the parsed document
or classified fetch failure each registry would answer with. -/
structure World where
  npm : Except FetchError NpmPackageResponse
  pypi : Except FetchError PypiPackageResponse
  crates : Except FetchError CratesPackageResponse

/-! ## Canonical timeline entities (src/types.ts lines 64-76) -/

/-- A release entry; `date` is the parsed timestamp of the ISO date string. -/
structure ReleaseEntry where
  version : String
  date : Int
  is_prerelease : Bool
deriving DecidableEq

/-- A release timeline. -/
structure ReleaseTimeline where
  package_name : String
  ecosystem : Ecosystem
  releases : List ReleaseEntry
  total_versions : Nat
deriving DecidableEq

/-- Comparator order of `releases.sort((a, b) => dateOf b - dateOf a)`:
`a` sorts no later than `b` exactly when `a`'s date is ≥ `b`'s. -/
def dateDesc (a b : ReleaseEntry) : Prop := b.date ≤ a.date

instance : DecidableRel dateDesc := fun a b => Int.decLe b.date a.date

instance : IsTotal ReleaseEntry dateDesc :=
  ⟨fun a b => le_total b.date a.date⟩

instance : IsTrans ReleaseEntry dateDesc :=
  ⟨fun _ _ _ h1 h2 => le_trans h2 h1⟩

/-- Model of the in-place `releases.sort(...)` descending by date (a
stable sort; JS mandates stability and the stable result is unique). -/
def sortReleasesDesc (releases : List ReleaseEntry) : List ReleaseEntry :=
  List.insertionSort dateDesc releases

/-- Number of entries `Array.prototype.slice(0, limit)` keeps (the
clamped limit is always ≥ 1). -/
def sliceCount (limit : Int) : Nat := limit.toNat

/-! ## Error classification (the catch blocks of every adapter)

Within one ecosystem the nine catch blocks are textually identical up to
message wording, so one handler per ecosystem is defined.  Branch order
follows the source: AbortError, then 404, then 429, then the catch-all. -/

/-- Catch-block classification shared by the npm adapters
(e.g. package-summary.ts lines 118-144). -/
def npmCatch (name : String) (e : FetchError) : ErrorCode × String × List (String × String) :=
  match e with
  | .abortError => (.TIMEOUT, "Request to npm registry timed out", [("package", name)])
  | .http 404 => (.INVALID_INPUT, "Package " ++ name ++ " not found on npm",
      [("package", name), ("ecosystem", "npm")])
  | .http 429 => (.RATE_LIMITED, "npm registry rate limit exceeded", [("package", name)])
  | .http s => (.UPSTREAM_ERROR, "Failed to fetch from npm: HTTP " ++ toString s,
      [("package", name)])
  | .network msg => (.UPSTREAM_ERROR, "Failed to fetch from npm: " ++ msg,
      [("package", name), ("originalError", msg)])

/-- Catch-block classification shared by the PyPI adapters. -/
def pypiCatch (name : String) (e : FetchError) : ErrorCode × String × List (String × String) :=
  match e with
  | .abortError => (.TIMEOUT, "Request to PyPI registry timed out", [("package", name)])
  | .http 404 => (.INVALID_INPUT, "Package " ++ name ++ " not found on PyPI",
      [("package", name), ("ecosystem", "pypi")])
  | .http 429 => (.RATE_LIMITED, "PyPI rate limit exceeded", [("package", name)])
  | .http s => (.UPSTREAM_ERROR, "Failed to fetch from PyPI: HTTP " ++ toString s,
      [("package", name)])
  | .network msg => (.UPSTREAM_ERROR, "Failed to fetch from PyPI: " ++ msg,
      [("package", name), ("originalError", msg)])

/-- Catch-block classification shared by the crates.io adapters. -/
def cratesCatch (name : String) (e : FetchError) : ErrorCode × String × List (String × String) :=
  match e with
  | .abortError => (.TIMEOUT, "Request to crates.io timed out", [("package", name)])
  | .http 404 => (.INVALID_INPUT, "Crate " ++ name ++ " not found on crates.io",
      [("package", name), ("ecosystem", "crates")])
  | .http 429 => (.RATE_LIMITED, "crates.io rate limit exceeded", [("package", name)])
  | .http s => (.UPSTREAM_ERROR, "Failed to fetch from crates.io: HTTP " ++ toString s,
      [("package", name)])
  | .network msg => (.UPSTREAM_ERROR, "Failed to fetch from crates.io: " ++ msg,
      [("package", name), ("originalError", msg)])

/-- Wrap a catch-block classification in an error envelope. -/
def catchResponse (c : ErrorCode × String × List (String × String)) : ApiResponse α :=
  .err c.1 c.2.1 c.2.2

/-! ## Release timeline tool (release-timeline.ts) -/

/-- Tail shared verbatim by all three timeline adapters: sort the
collected entries by date descending, record the pre-truncation count as
`total_versions`, slice to the limit. -/
def assembleTimeline (pkgName : String) (eco : Ecosystem) (limit : Int)
    (releases : List ReleaseEntry) : ReleaseTimeline :=
  let sorted := sortReleasesDesc releases
  ⟨pkgName, eco, sorted.take (sliceCount limit), sorted.length⟩

/-- The npm timeline's release collection (release-timeline.ts lines
396-406): every `time` entry except the reserved keys. -/
def npmTimelineReleases (data : NpmPackageResponse) : List ReleaseEntry :=
  (data.time.filter fun kv => kv.1 ≠ "created" ∧ kv.1 ≠ "modified").map
    fun kv => ⟨kv.1, kv.2, isPrerelease kv.1⟩

/-- Model of `fetchNpmTimeline` (release-timeline.ts lines 386-458). -/
def fetchNpmTimeline (name : String) (limit : Int)
    (upstream : Except FetchError NpmPackageResponse) : ApiResponse ReleaseTimeline :=
  match upstream with
  | .error e => catchResponse (npmCatch name e)
  | .ok data => .ok (assembleTimeline data.name .npm limit (npmTimelineReleases data))

/-- Timestamp chosen for one PyPI artifact:
`f.upload_time_iso_8601 || f.upload_time`. -/
def fileDate (f : PypiFile) : Option Int :=
  match f.upload_time_iso_8601 with
  | some d => some d
  | none => f.upload_time

/-- The timeline's per-version date selection (release-timeline.ts lines
477-489): collect the artifacts' timestamps, drop the falsy ones, sort
ascending, and use the first, i.e. the earliest. -/
def pypiTimelineEntry (version : String) (files : List PypiFile) : Option ReleaseEntry :=
  let dates := sortDatesAsc (files.filterMap fileDate)
  match dates with
  | [] => none
  | d :: _ => some ⟨version, d, isPrerelease version⟩

/-- The PyPI timeline's release collection (release-timeline.ts lines
473-490). -/
def pypiTimelineReleases (data : PypiPackageResponse) : List ReleaseEntry :=
  data.releases.filterMap fun kv => pypiTimelineEntry kv.1 kv.2

/-- Model of `fetchPypiTimeline` (release-timeline.ts lines 463-542). -/
def fetchPypiTimeline (name : String) (limit : Int)
    (upstream : Except FetchError PypiPackageResponse) : ApiResponse ReleaseTimeline :=
  match upstream with
  | .error e => catchResponse (pypiCatch name e)
  | .ok data => .ok (assembleTimeline data.info.name .pypi limit (pypiTimelineReleases data))

/-- The crates.io timeline's release collection (release-timeline.ts
lines 556-563): yanked versions are excluded. -/
def cratesTimelineReleases (data : CratesPackageResponse) : List ReleaseEntry :=
  (data.versions.filter fun v => ¬v.yanked).map
    fun v => ⟨v.num, v.created_at, isPrerelease v.num⟩

/-- Model of `fetchCratesTimeline` (release-timeline.ts lines 547-615). -/
def fetchCratesTimeline (name : String) (limit : Int)
    (upstream : Except FetchError CratesPackageResponse) : ApiResponse ReleaseTimeline :=
  match upstream with
  | .error e => catchResponse (cratesCatch name e)
  | .ok data => .ok (assembleTimeline data.crate.name .crates limit (cratesTimelineReleases data))

/-- Input of the release-timeline tool. -/
structure ReleaseTimelineInput where
  ecosystem : EcoInput
  name : String
  limit : JsLimit

/-- Model of the `releaseTimeline` dispatcher (release-timeline.ts lines
620-656): validate the name, clamp the limit, dispatch on the ecosystem. -/
def releaseTimeline (input : ReleaseTimelineInput) (w : World) : ApiResponse ReleaseTimeline :=
  if jsTrim input.name = "" then
    .err .INVALID_INPUT "Package name is required" [("provided", input.name)]
  else
    let limit := clampLimit input.limit
    let trimmedName := jsTrim input.name
    match input.ecosystem with
    | .known .npm => fetchNpmTimeline trimmedName limit w.npm
    | .known .pypi => fetchPypiTimeline trimmedName limit w.pypi
    | .known .crates => fetchCratesTimeline trimmedName limit w.crates
    | .unknown s =>
      .err .INVALID_INPUT ("Unsupported ecosystem: " ++ s ++ ". Supported: npm, pypi, crates")
        [("provided", s)]

/-! ## Repository URL normalization (package-summary.ts lines 64-82) -/

/-- Replace the first occurrence of character `c` by `r`, as the JS
`url.replace(':', '/')` (string pattern, first match only). -/
def replaceFirstChar (c r : Char) : List Char → List Char
  | [] => []
  | x :: t => if x = c then r :: t else x :: replaceFirstChar c r t

/-- The characters of `"git+"`. -/
def gitPlusMark : List Char := ['g', 'i', 't', '+']

/-- The characters of `"git://"`. -/
def gitSchemeMark : List Char := ['g', 'i', 't', ':', '/', '/']

/-- The characters of `".git"`. -/
def dotGitMark : List Char := ['.', 'g', 'i', 't']

/-- The characters of `"git@"`. -/
def gitAtMark : List Char := ['g', 'i', 't', '@']

/-- The characters of `"https://"`. -/
def httpsMark : List Char := ['h', 't', 't', 'p', 's', ':', '/', '/']

/-- Step 1a: `url.replace(/^git\+/, '')`. -/
def stripGitPlus (u : List Char) : List Char :=
  if gitPlusMark <+: u then u.drop 4 else u

/-- Step 1b: `url.replace(/^git:\/\//, 'https://')`. -/
def rewriteGitScheme (u : List Char) : List Char :=
  if gitSchemeMark <+: u then httpsMark ++ u.drop 6 else u

/-- Step 2: `url.replace(/\.git$/, '')`. -/
def stripDotGit (u : List Char) : List Char :=
  if dotGitMark <:+ u then u.take (u.length - 4) else u

/-- Step 3: the SSH rewrite branch.  When the URL starts with `git@`,
the source replaces the first `"git@"` by `"https://"` and then the
first `":"` anywhere by `"/"` (which, notably, hits the colon of the
just-introduced `https://` scheme). -/
def rewriteSsh (u : List Char) : List Char :=
  if gitAtMark <+: u then replaceFirstChar ':' '/' (httpsMark ++ u.drop 4) else u

/-- The character-level pipeline of `parseRepositoryUrl`. -/
def normalizeRepoUrl (u : List Char) : List Char :=
  rewriteSsh (stripDotGit (rewriteGitScheme (stripGitPlus u)))

/-- Model of `parseRepositoryUrl` (package-summary.ts lines 64-82):
`null`/`undefined` and the falsy empty string yield `null`; an object
contributes its `url` field, likewise rejected when empty. -/
def parseRepositoryUrl : Option NpmRepo → Option String
  | none => none
  | some (.str s) => if s = "" then none else some (normalizeRepoUrl s.toList).asString
  | some (.obj _ url) => if url = "" then none else some (normalizeRepoUrl url.toList).asString

/-! ## Package summary tool (package-summary.ts) -/

/-- Canonical package summary (src/types.ts lines 48-61). -/
structure Downloads where
  weekly : Option Nat
  monthly : Option Nat
  total : Option Nat
deriving DecidableEq

/-- Canonical package summary (src/types.ts lines 48-61). -/
structure PackageSummary where
  name : String
  version : String
  description : Option String
  homepage : Option String
  repository : Option String
  license : Option String
  keywords : List String
  downloads : Option Downloads
deriving DecidableEq

/-- Association-list lookup modelling a JS object property access. -/
def lookupProp (props : List (String × α)) (key : String) : Option α :=
  (props.find? fun kv => kv.1 = key).map fun kv => kv.2

/-- Left-biased truthy choice of `a || b` for optional npm repository
fields: objects are always truthy, strings only when non-empty. -/
def jsOrRepo : Option NpmRepo → Option NpmRepo → Option NpmRepo
  | some (.str s), b => if s = "" then b else some (.str s)
  | some (.obj k u), _ => some (.obj k u)
  | none, b => b

/-- The npm summary `license` expression (package-summary.ts lines
103-108): a package-level string wins; else a string per-version
license; else the `.type` of an object license, `|| null`. -/
def npmLicenseField (dataLicense : Option String) (versionData : Option NpmVersionData) :
    Option String :=
  match dataLicense with
  | some s => some s
  | none =>
    match versionData.bind fun vd => vd.license with
    | some (.str s) => some s
    | some (.obj kind) => if kind = "" then none else some kind
    | none => none

/-- Model of `fetchNpmSummary` (package-summary.ts lines 87-145). -/
def fetchNpmSummary (name : String)
    (upstream : Except FetchError NpmPackageResponse) : ApiResponse PackageSummary :=
  match upstream with
  | .error e => catchResponse (npmCatch name e)
  | .ok data =>
    let latestVersion := data.dist_tags_latest
    let versionData : Option NpmVersionData :=
      match latestVersion with
      | some v => if v = "" then none else lookupProp data.versions v
      | none => none
    .ok {
      name := data.name
      version := (jsOrS latestVersion (some "unknown")).getD "unknown"
      description := jsOrS data.description
        (jsOrS (versionData.bind fun vd => vd.description) none)
      homepage := jsOrS data.homepage
        (jsOrS (versionData.bind fun vd => vd.homepage) none)
      repository := parseRepositoryUrl
        (jsOrRepo data.repository (versionData.bind fun vd => vd.repository))
      license := npmLicenseField data.license versionData
      keywords :=
        match data.keywords with
        | some k => k
        | none => (versionData.bind fun vd => vd.keywords).getD []
      downloads := none }

/-- The PyPI keyword separator class `[,\s]+`. -/
def pypiSep (c : Char) : Bool := c = ',' || c = ' ' || c = '\t' || c = '\n' || c = '\r'

/-- Model of `info.keywords.split(/[,\s]+/).filter(k => k.length > 0)`. -/
def splitKeywords (s : String) : List String :=
  ((s.toList.splitOnP pypiSep).map List.asString).filter fun k => k ≠ ""

/-- Model of `fetchPypiSummary` (package-summary.ts lines 150-218). -/
def fetchPypiSummary (name : String)
    (upstream : Except FetchError PypiPackageResponse) : ApiResponse PackageSummary :=
  match upstream with
  | .error e => catchResponse (pypiCatch name e)
  | .ok data =>
    let info := data.info
    let repository : Option String :=
      match info.project_urls with
      | none => none
      | some urls =>
        jsOrS (lookupProp urls "Repository")
          (jsOrS (lookupProp urls "Source")
            (jsOrS (lookupProp urls "GitHub")
              (jsOrS (lookupProp urls "Source Code") none)))
    let keywords : List String :=
      match info.keywords with
      | some s => if s = "" then [] else splitKeywords s
      | none => []
    .ok {
      name := info.name
      version := info.version
      description := info.summary
      homepage := jsOrS info.home_page info.project_url
      repository := repository
      license := info.license
      keywords := keywords
      downloads := none }

/-- Model of `fetchCratesSummary` (package-summary.ts lines 223-280). -/
def fetchCratesSummary (name : String)
    (upstream : Except FetchError CratesPackageResponse) : ApiResponse PackageSummary :=
  match upstream with
  | .error e => catchResponse (cratesCatch name e)
  | .ok data =>
    let crate := data.crate
    let latestVersion := data.versions.find? fun v => v.num = crate.max_version
    .ok {
      name := crate.name
      version := (jsOrS crate.max_stable_version (some crate.max_version)).getD crate.max_version
      description := crate.description
      homepage := crate.homepage
      repository := crate.repository
      license := jsOrS (latestVersion.bind fun v => v.license) none
      keywords := crate.keywords
      downloads := some {
        weekly :=
          match crate.recent_downloads with
          | some n => if n = 0 then none else some n
          | none => none
        monthly := none
        total := some crate.downloads } }

/-- Input of the package-summary tool. -/
structure PackageSummaryInput where
  ecosystem : EcoInput
  name : String

/-- Model of the `packageSummary` dispatcher (package-summary.ts lines
285-312). -/
def packageSummary (input : PackageSummaryInput) (w : World) : ApiResponse PackageSummary :=
  if jsTrim input.name = "" then
    .err .INVALID_INPUT "Package name is required" [("provided", input.name)]
  else
    let trimmedName := jsTrim input.name
    match input.ecosystem with
    | .known .npm => fetchNpmSummary trimmedName w.npm
    | .known .pypi => fetchPypiSummary trimmedName w.pypi
    | .known .crates => fetchCratesSummary trimmedName w.crates
    | .unknown s =>
      .err .INVALID_INPUT ("Unsupported ecosystem: " ++ s ++ ". Supported: npm, pypi, crates")
        [("provided", s)]

/-! ## Maintenance signals tool (maintenance-signals.ts) -/

/-- Maintenance signals (src/types.ts lines 82-97).
`days_since_last_release` uses the sentinel `-1` when no release date is
known; `last_release_date` is the parsed timestamp of the reported ISO
string; `releases_per_year` is the rounded exact rational. -/
structure MaintenanceSignals where
  package_name : String
  ecosystem : Ecosystem
  days_since_last_release : Int
  last_release_date : Option Int
  releases_per_year : ℚ
  total_versions : Nat
  is_deprecated : Bool
  deprecation_message : Option String
  maintenance_score : MaintenanceRating
  score_factors : MaintenanceRating × MaintenanceRating × MaintenanceRating
deriving DecidableEq

/-- Largest element scanned left to right with strict `>`, as the
`if (!lastReleaseDate || date > lastReleaseDate)` accumulation. -/
def lastDateOf (dates : List Int) : Option Int :=
  dates.foldl (fun acc d =>
    match acc with
    | none => some d
    | some m => if m < d then some d else some m) none

/-- Assemble the common tail of every maintenance-signals adapter
(recency/frequency/maturity ratings, overall score, rounded output). -/
def buildSignals (pkgName : String) (eco : Ecosystem) (now : Int)
    (releaseDates : List Int) (isDeprecated : Bool)
    (deprecationMessage : Option String) : MaintenanceSignals :=
  let lastReleaseDate := lastDateOf releaseDates
  let daysSinceLastRelease : Option Nat := lastReleaseDate.map (daysBetween now)
  let releasesPerYear := calculateReleasesPerYear releaseDates
  let totalVersions := releaseDates.length
  let recency := rateRecencyOpt daysSinceLastRelease
  let frequency := rateFrequency releasesPerYear
  let maturity := rateMaturity totalVersions
  let maintenanceScore := calculateOverallScore recency frequency maturity isDeprecated
  { package_name := pkgName
    ecosystem := eco
    days_since_last_release :=
      match daysSinceLastRelease with
      | none => -1
      | some d => d
    last_release_date := lastReleaseDate
    releases_per_year := jsRound2 releasesPerYear
    total_versions := totalVersions
    is_deprecated := isDeprecated
    deprecation_message := deprecationMessage
    maintenance_score := maintenanceScore
    score_factors := (recency, frequency, maturity) }

/-- Deprecation check of the npm adapter (maintenance-signals.ts lines
168-173): the `deprecated` marker of the `dist-tags.latest` version,
when that tag and the marker are truthy. -/
def npmDeprecation (data : NpmPackageResponse) : Bool × Option String :=
  match data.dist_tags_latest with
  | none => (false, none)
  | some v =>
    if v = "" then (false, none)
    else
      match (lookupProp data.versions v).bind fun vd => vd.deprecated with
      | some m => if m = "" then (false, none) else (true, some m)
      | none => (false, none)

/-- Model of `fetchNpmMaintenanceSignals` (maintenance-signals.ts lines
145-240). -/
def fetchNpmMaintenanceSignals (name : String) (now : Int)
    (upstream : Except FetchError NpmPackageResponse) : ApiResponse MaintenanceSignals :=
  match upstream with
  | .error e => catchResponse (npmCatch name e)
  | .ok data =>
    let releaseDates : List Int :=
      (data.time.filter fun kv => kv.1 ≠ "created" ∧ kv.1 ≠ "modified").map fun kv => kv.2
    let dep := npmDeprecation data
    .ok (buildSignals data.name .npm now releaseDates dep.1 dep.2)

/-- The maintenance adapter's per-version date selection
(maintenance-signals.ts lines 257-268): unlike the timeline path, it
reads `files[0]` — the first listed artifact — not the earliest. -/
def pypiMaintenanceDate (files : List PypiFile) : Option Int :=
  match files with
  | [] => none
  | f :: _ => fileDate f

/-- Deprecation check of the PyPI adapter (maintenance-signals.ts lines
271-273): two lifecycle classifier substrings. -/
def pypiDeprecation (info : PypiInfo) : Bool :=
  match info.classifiers with
  | none => false
  | some cs => cs.any fun c =>
      hasSub c.toList "Development Status :: 7 - Inactive".toList ||
      hasSub c.toList "Development Status :: 1 - Planning".toList

/-- Model of `fetchPypiMaintenanceSignals` (maintenance-signals.ts lines
245-339). -/
def fetchPypiMaintenanceSignals (name : String) (now : Int)
    (upstream : Except FetchError PypiPackageResponse) : ApiResponse MaintenanceSignals :=
  match upstream with
  | .error e => catchResponse (pypiCatch name e)
  | .ok data =>
    let releaseDates : List Int :=
      data.releases.filterMap fun kv => pypiMaintenanceDate kv.2
    .ok (buildSignals data.info.name .pypi now releaseDates (pypiDeprecation data.info) none)

/-- Model of `fetchCratesMaintenanceSignals` (maintenance-signals.ts
lines 344-432). -/
def fetchCratesMaintenanceSignals (name : String) (now : Int)
    (upstream : Except FetchError CratesPackageResponse) : ApiResponse MaintenanceSignals :=
  match upstream with
  | .error e => catchResponse (cratesCatch name e)
  | .ok data =>
    let releaseDates : List Int :=
      (data.versions.filter fun v => ¬v.yanked).map fun v => v.created_at
    let isDeprecated := data.versions.all fun v => v.yanked
    .ok (buildSignals data.crate.name .crates now releaseDates isDeprecated none)

/-- Input of the maintenance-signals tool. -/
structure MaintenanceSignalsInput where
  ecosystem : EcoInput
  name : String

/-- Model of the `maintenanceSignals` dispatcher (maintenance-signals.ts
lines 437-464). -/
def maintenanceSignals (input : MaintenanceSignalsInput) (now : Int) (w : World) :
    ApiResponse MaintenanceSignals :=
  if jsTrim input.name = "" then
    .err .INVALID_INPUT "Package name is required" [("provided", input.name)]
  else
    let trimmedName := jsTrim input.name
    match input.ecosystem with
    | .known .npm => fetchNpmMaintenanceSignals trimmedName now w.npm
    | .known .pypi => fetchPypiMaintenanceSignals trimmedName now w.pypi
    | .known .crates => fetchCratesMaintenanceSignals trimmedName now w.crates
    | .unknown s =>
      .err .INVALID_INPUT ("Unsupported ecosystem: " ++ s ++ ". Supported: npm, pypi, crates")
        [("provided", s)]

/-! ## Spec-side reference definitions

These two definitions transcribe the SPEC's wording (spec.md §4.5) so
that refinement claims can compare the code's functions against them. -/

/-- The spec's overall-score rule, written with the literal weights
`0.5/0.3/0.2` and thresholds `1.5/0.7` over exact rationals. -/
def specOverallScore (recency frequency maturity : MaintenanceRating)
    (isDeprecated : Bool) : MaintenanceRating :=
  if isDeprecated then .poor
  else
    let weightedSum : ℚ :=
      (ratingScore recency : ℚ) * 0.5 + (ratingScore frequency : ℚ) * 0.3 +
        (ratingScore maturity : ℚ) * 0.2
    if weightedSum ≥ 1.5 then .good
    else if weightedSum ≥ 0.7 then .fair
    else .poor

/-- The spec's releases-per-year rule: 0 below two releases, else the
release count divided by the span in years between the earliest and the
latest release, with the ×10 extrapolation below a tenth of a year. -/
def specReleasesPerYear (dates : List Int) : ℚ :=
  if dates.length < 2 then 0
  else
    let spanDays := daysBetween ((dates.min?).getD 0) ((dates.max?).getD 0)
    let spanYears : ℚ := (spanDays : ℚ) / 365
    if spanYears < 0.1 then (dates.length : ℚ) * 10
    else (dates.length : ℚ) / spanYears

/-- Data carried by a success envelope, if any. -/
def ApiResponse.dataOf : ApiResponse α → Option α
  | .ok d => some d
  | .err _ _ _ => none

/-- The failure shape claim C8 asserts for an unknown package: code
INVALID_INPUT and details echoing the package and the ecosystem. -/
def notFoundEnvelope (r : ApiResponse α) (pkg eco : String) : Prop :=
  r.errCode = some .INVALID_INPUT ∧
  ("package", pkg) ∈ r.errDetails ∧
  ("ecosystem", eco) ∈ r.errDetails

/-! ## Concrete fixtures used by witnesses and counterexamples -/

/-- Empty npm per-version metadata. -/
def npmVersionNil : NpmVersionData := ⟨none, none, none, none, none, none⟩

/-- An npm document with 21 releases (plus the two reserved time keys). -/
def npmDoc21 : NpmPackageResponse where
  name := "demo"
  dist_tags_latest := some "v21"
  versions := [("v21", npmVersionNil)]
  time := [("created", 0), ("modified", 0),
    ("v1", 1), ("v2", 2), ("v3", 3), ("v4", 4), ("v5", 5), ("v6", 6), ("v7", 7),
    ("v8", 8), ("v9", 9), ("v10", 10), ("v11", 11), ("v12", 12), ("v13", 13),
    ("v14", 14), ("v15", 15), ("v16", 16), ("v17", 17), ("v18", 18), ("v19", 19),
    ("v20", 20), ("v21", 21)]
  description := none
  homepage := none
  repository := none
  license := none
  keywords := none

/-- The release list (ecosystem-dependent, limit-independent) an engine
call collects before sorting and truncation; `none` when the call cannot
reach an adapter's success path. -/
def timelineSource (input : ReleaseTimelineInput) (w : World) : Option (List ReleaseEntry) :=
  match input.ecosystem with
  | .known .npm => w.npm.toOption.map npmTimelineReleases
  | .known .pypi => w.pypi.toOption.map pypiTimelineReleases
  | .known .crates => w.crates.toOption.map cratesTimelineReleases
  | .unknown _ => none

/-- The timeline `npmDoc21` yields under the default limit: the 20 most
recent of its 21 releases, newest first. -/
def timelineData21 : ReleaseTimeline where
  package_name := "demo"
  ecosystem := .npm
  releases :=
    [⟨"v21", 21, false⟩, ⟨"v20", 20, false⟩, ⟨"v19", 19, false⟩, ⟨"v18", 18, false⟩,
     ⟨"v17", 17, false⟩, ⟨"v16", 16, false⟩, ⟨"v15", 15, false⟩, ⟨"v14", 14, false⟩,
     ⟨"v13", 13, false⟩, ⟨"v12", 12, false⟩, ⟨"v11", 11, false⟩, ⟨"v10", 10, false⟩,
     ⟨"v9", 9, false⟩, ⟨"v8", 8, false⟩, ⟨"v7", 7, false⟩, ⟨"v6", 6, false⟩,
     ⟨"v5", 5, false⟩, ⟨"v4", 4, false⟩, ⟨"v3", 3, false⟩, ⟨"v2", 2, false⟩]
  total_versions := 21

/-- The timeline `npmDoc21` yields under a limit of 500 (clamped to the
ceiling 100): all 21 releases, newest first. -/
def timelineData21full : ReleaseTimeline where
  package_name := "demo"
  ecosystem := .npm
  releases :=
    [⟨"v21", 21, false⟩, ⟨"v20", 20, false⟩, ⟨"v19", 19, false⟩, ⟨"v18", 18, false⟩,
     ⟨"v17", 17, false⟩, ⟨"v16", 16, false⟩, ⟨"v15", 15, false⟩, ⟨"v14", 14, false⟩,
     ⟨"v13", 13, false⟩, ⟨"v12", 12, false⟩, ⟨"v11", 11, false⟩, ⟨"v10", 10, false⟩,
     ⟨"v9", 9, false⟩, ⟨"v8", 8, false⟩, ⟨"v7", 7, false⟩, ⟨"v6", 6, false⟩,
     ⟨"v5", 5, false⟩, ⟨"v4", 4, false⟩, ⟨"v3", 3, false⟩, ⟨"v2", 2, false⟩,
     ⟨"v1", 1, false⟩]
  total_versions := 21

/-- A world where every registry answers HTTP 404. -/
def world404 : World :=
  ⟨.error (.http 404), .error (.http 404), .error (.http 404)⟩

/-- A world where npm serves `npmDoc21`. -/
def worldNpm21 : World :=
  ⟨.ok npmDoc21, .error (.network "unused"), .error (.network "unused")⟩

/-- A PyPI document whose single version has two artifacts, the later
one listed first. -/
def pypiDocLaterFirst : PypiPackageResponse where
  info := ⟨"demo", "1.0.0", none, none, none, none, none, none, none⟩
  releases := [("1.0.0", [⟨none, some 200⟩, ⟨none, some 100⟩])]

/-- A crates.io document whose `max_stable_version` differs from
`max_version`, with distinct licenses on the two version records. -/
def cratesDocStable : CratesPackageResponse where
  crate :=
    { name := "demo"
      description := none
      homepage := none
      repository := none
      max_version := "2.0.0-beta.1"
      max_stable_version := some "1.0.0"
      downloads := 10
      recent_downloads := none
      keywords := [] }
  versions :=
    [⟨"2.0.0-beta.1", 200, false, some "MIT"⟩,
     ⟨"1.0.0", 100, false, some "Apache-2.0"⟩]

/-- A crates.io document whose only version is yanked (deprecated). -/
def cratesDocYanked : CratesPackageResponse where
  crate :=
    { name := "demo"
      description := none
      homepage := none
      repository := none
      max_version := "1.0.0"
      max_stable_version := none
      downloads := 0
      recent_downloads := none
      keywords := [] }
  versions := [⟨"1.0.0", 100, true, none⟩]

/-- The summary `cratesDocStable` yields: the version reported is the
stable marker, the license comes from the `max_version` record. -/
def cratesSummaryStable : PackageSummary where
  name := "demo"
  version := "1.0.0"
  description := none
  homepage := none
  repository := none
  license := some "MIT"
  keywords := []
  downloads := some ⟨none, none, some 10⟩

/-- The maintenance signals `cratesDocYanked` yields: deprecated (all
versions yanked), no dates, no deprecation message. -/
def cratesYankedSignals : MaintenanceSignals where
  package_name := "demo"
  ecosystem := .crates
  days_since_last_release := -1
  last_release_date := none
  releases_per_year := 0
  total_versions := 0
  is_deprecated := true
  deprecation_message := none
  maintenance_score := .poor
  score_factors := (.poor, .poor, .poor)

/-! # Theorems -/

/-! ## C1: prerelease classifier test vectors -/

/-- C1, counterexample: the spec's vector set is false on the code —
`isPrerelease "1.0.0-final"` is `true`, because the single-letter
alternative `a` of the regex (all of whose surrounding parts are
optional) matches inside `"final"`. -/
theorem C1_counterexample :
    ¬ (isPrerelease "1.0.0" = false ∧ isPrerelease "1.0.0-alpha1" = true ∧
       isPrerelease "2.0.0-rc.3" = true ∧ isPrerelease "1.0.0-final" = false) := by
  decide

/-- C1, amended: the classifier returns false on "1.0.0", true on
"1.0.0-alpha1" and "2.0.0-rc.3", and also true on "1.0.0-final" (the
bare `a` marker matches inside "final"). -/
theorem C1_amended :
    isPrerelease "1.0.0" = false ∧ isPrerelease "1.0.0-alpha1" = true ∧
    isPrerelease "2.0.0-rc.3" = true ∧ isPrerelease "1.0.0-final" = true := by
  decide

/-! ## C3: overall maintenance score -/

/-- C3: for every combination of sub-ratings, a set deprecation flag
forces `poor`, and otherwise `calculateOverallScore` agrees with the
spec's weighted-sum rule (map {good,fair,poor} to {2,1,0}, weigh by
0.5/0.3/0.2, then ≥1.5 → good, ≥0.7 → fair, else poor). -/
theorem C3_overall_score (recency frequency maturity : MaintenanceRating) :
    (∀ isDeprecated,
      calculateOverallScore recency frequency maturity isDeprecated =
        specOverallScore recency frequency maturity isDeprecated) ∧
    calculateOverallScore recency frequency maturity true = .poor := by
  constructor
  · intro d
    cases d <;> cases recency <;> cases frequency <;> cases maturity <;>
      simp [calculateOverallScore, specOverallScore, ratingScore, Rat.mkRat_eq_div] <;>
      norm_num
  · simp [calculateOverallScore]

/-! ## Timeline infrastructure lemmas -/

/-- The descending sort produces a list pairwise ordered by `dateDesc`. -/
theorem sortReleasesDesc_pairwise (R : List ReleaseEntry) :
    List.Pairwise dateDesc (sortReleasesDesc R) :=
  List.sorted_insertionSort dateDesc R

/-- Sorting preserves the number of releases. -/
theorem length_sortReleasesDesc (R : List ReleaseEntry) :
    (sortReleasesDesc R).length = R.length :=
  List.length_insertionSort dateDesc R

/-- Every successful `releaseTimeline` answer is built from the
limit-independent collected release list of its ecosystem: the output
is the descending sort truncated to the clamped limit, and
`total_versions` is the full pre-truncation count. -/
theorem releaseTimeline_ok_shape {input : ReleaseTimelineInput} {w : World}
    {data : ReleaseTimeline} (h : releaseTimeline input w = .ok data) :
    ∃ R, timelineSource input w = some R ∧
      data.releases = (sortReleasesDesc R).take (sliceCount (clampLimit input.limit)) ∧
      data.total_versions = R.length := by
  obtain ⟨eco, name, lim⟩ := input
  by_cases hname : jsTrim name = ""
  · simp [releaseTimeline, hname] at h
  · cases eco with
    | unknown s => simp [releaseTimeline, hname] at h
    | known e =>
      cases e with
      | npm =>
        cases hu : w.npm with
        | error err => simp [releaseTimeline, hname, fetchNpmTimeline, hu, catchResponse] at h
        | ok raw =>
          have hd : data = assembleTimeline raw.name .npm (clampLimit lim)
              (npmTimelineReleases raw) := by
            have := h
            simp [releaseTimeline, hname, fetchNpmTimeline, hu] at this
            exact this.symm
          refine ⟨npmTimelineReleases raw, by simp [timelineSource, hu, Except.toOption], ?_, ?_⟩
          · rw [hd]; rfl
          · rw [hd]
            show (sortReleasesDesc (npmTimelineReleases raw)).length = _
            exact length_sortReleasesDesc _
      | pypi =>
        cases hu : w.pypi with
        | error err => simp [releaseTimeline, hname, fetchPypiTimeline, hu, catchResponse] at h
        | ok raw =>
          have hd : data = assembleTimeline raw.info.name .pypi (clampLimit lim)
              (pypiTimelineReleases raw) := by
            have := h
            simp [releaseTimeline, hname, fetchPypiTimeline, hu] at this
            exact this.symm
          refine ⟨pypiTimelineReleases raw, by simp [timelineSource, hu, Except.toOption], ?_, ?_⟩
          · rw [hd]; rfl
          · rw [hd]
            show (sortReleasesDesc (pypiTimelineReleases raw)).length = _
            exact length_sortReleasesDesc _
      | crates =>
        cases hu : w.crates with
        | error err => simp [releaseTimeline, hname, fetchCratesTimeline, hu, catchResponse] at h
        | ok raw =>
          have hd : data = assembleTimeline raw.crate.name .crates (clampLimit lim)
              (cratesTimelineReleases raw) := by
            have := h
            simp [releaseTimeline, hname, fetchCratesTimeline, hu] at this
            exact this.symm
          refine ⟨cratesTimelineReleases raw, by simp [timelineSource, hu, Except.toOption], ?_, ?_⟩
          · rw [hd]; rfl
          · rw [hd]
            show (sortReleasesDesc (cratesTimelineReleases raw)).length = _
            exact length_sortReleasesDesc _

/-- The number of returned entries is the clamped limit capped by the
full release count. -/
theorem releaseTimeline_ok_length {input : ReleaseTimelineInput} {w : World}
    {data : ReleaseTimeline} (h : releaseTimeline input w = .ok data) :
    data.releases.length = min (sliceCount (clampLimit input.limit)) data.total_versions := by
  obtain ⟨R, _, hrel, htot⟩ := releaseTimeline_ok_shape h
  rw [hrel, htot, List.length_take, length_sortReleasesDesc]

/-! ## C2: timeline ordering and total-count invariants -/

/-- C2: every successful timeline is ordered by date non-increasing
(entry `i` dates no earlier than entry `j` whenever `i < j`),
`total_versions` bounds `releases.length` from above, and
`total_versions` is independent of the requested limit (it counts the
release set prior to truncation). -/
theorem C2_timeline_invariants (input : ReleaseTimelineInput) (w : World)
    (data : ReleaseTimeline) (h : releaseTimeline input w = .ok data) :
    (∀ i j : Fin data.releases.length, (i : ℕ) < (j : ℕ) →
        (data.releases.get j).date ≤ (data.releases.get i).date) ∧
    data.releases.length ≤ data.total_versions ∧
    (∀ (otherLimit : JsLimit) (other : ReleaseTimeline),
        releaseTimeline { input with limit := otherLimit } w = .ok other →
        other.total_versions = data.total_versions) := by
  obtain ⟨R, hsrc, hrel, htot⟩ := releaseTimeline_ok_shape h
  refine ⟨?_, ?_, ?_⟩
  · have hp : List.Pairwise dateDesc data.releases := by
      rw [hrel]
      exact List.Pairwise.sublist (List.take_sublist _ _) (sortReleasesDesc_pairwise R)
    intro i j hij
    exact List.pairwise_iff_get.mp hp i j hij
  · rw [hrel, htot, List.length_take, length_sortReleasesDesc]
    exact min_le_right _ _
  · intro l₂ d₂ h₂
    obtain ⟨R₂, hsrc₂, _, htot₂⟩ := releaseTimeline_ok_shape h₂
    have hsame : timelineSource { input with limit := l₂ } w = timelineSource input w := rfl
    rw [hsame, hsrc] at hsrc₂
    rw [htot₂, htot, Option.some_inj.mp hsrc₂]

/-- C2 witness: the invariants hold at a concrete npm run with 21
releases and the default limit. -/
theorem C2_timeline_witness :
    (timelineData21.releases.get ⟨1, by decide⟩).date ≤
      (timelineData21.releases.get ⟨0, by decide⟩).date ∧
    timelineData21.releases.length ≤ timelineData21.total_versions := by
  have h := C2_timeline_invariants ⟨.known .npm, "demo", .absent⟩ worldNpm21 timelineData21
    (by decide)
  exact ⟨h.1 ⟨0, by decide⟩ ⟨1, by decide⟩ (by decide), h.2.1⟩

/-! ## C4: limit clamping -/

/-- C4: an absent, non-numeric, zero or negative limit clamps to the
default 20 (yielding exactly 20 entries whenever at least 20 releases
exist), a limit above 100 clamps to the hard ceiling 100 (yielding at
most 100 entries), and a limit already inside [1, 100] is used
unchanged. -/
theorem C4_limit_clamping :
    (clampLimit .absent = 20 ∧ clampLimit .other = 20) ∧
    (∀ n : Int, n < 1 → clampLimit (.num n) = 20) ∧
    (∀ n : Int, 100 < n → clampLimit (.num n) = 100) ∧
    (∀ n : Int, 1 ≤ n → n ≤ 100 → clampLimit (.num n) = n) ∧
    (∀ (input : ReleaseTimelineInput) (w : World) (data : ReleaseTimeline),
        (input.limit = .absent ∨ input.limit = .other ∨
          ∃ n, n < 1 ∧ input.limit = .num n) →
        releaseTimeline input w = .ok data →
        data.releases.length = min 20 data.total_versions) ∧
    (∀ (input : ReleaseTimelineInput) (w : World) (data : ReleaseTimeline) (n : Int),
        input.limit = .num n → 100 < n →
        releaseTimeline input w = .ok data →
        data.releases.length = min 100 data.total_versions) := by
  have habs : clampLimit .absent = 20 := by decide
  have hoth : clampLimit .other = 20 := by decide
  have hlow : ∀ n : Int, n < 1 → clampLimit (.num n) = 20 := by
    intro n hn
    simp only [clampLimit, defaultTimelineLimit, maxTimelineLimit]
    split_ifs <;> omega
  have hhigh : ∀ n : Int, 100 < n → clampLimit (.num n) = 100 := by
    intro n hn
    simp only [clampLimit, defaultTimelineLimit, maxTimelineLimit]
    split_ifs <;> omega
  have hmid : ∀ n : Int, 1 ≤ n → n ≤ 100 → clampLimit (.num n) = n := by
    intro n h1 h2
    simp only [clampLimit, defaultTimelineLimit, maxTimelineLimit]
    split_ifs <;> omega
  refine ⟨⟨habs, hoth⟩, hlow, hhigh, hmid, ?_, ?_⟩
  · intro input w data hlim hok
    have hcl : clampLimit input.limit = 20 := by
      rcases hlim with h | h | ⟨n, hn, h⟩
      · rw [h]; exact habs
      · rw [h]; exact hoth
      · rw [h]; exact hlow n hn
    have := releaseTimeline_ok_length hok
    rw [hcl] at this
    simpa [sliceCount] using this
  · intro input w data n hn h100 hok
    have hcl : clampLimit input.limit = 100 := by rw [hn]; exact hhigh n h100
    have := releaseTimeline_ok_length hok
    rw [hcl] at this
    simpa [sliceCount] using this

/-- C4 witness: the clamping rules at concrete limits, and the entry
counts of concrete runs with 21 releases under an absent limit and
under a limit of 500. -/
theorem C4_limit_clamping_witness :
    clampLimit (.num 0) = 20 ∧ clampLimit (.num (-5)) = 20 ∧
    clampLimit (.num 500) = 100 ∧ clampLimit (.num 50) = 50 ∧
    timelineData21.releases.length = min 20 timelineData21.total_versions ∧
    timelineData21full.releases.length = min 100 timelineData21full.total_versions := by
  refine ⟨C4_limit_clamping.2.1 0 (by decide), C4_limit_clamping.2.1 (-5) (by decide),
    C4_limit_clamping.2.2.1 500 (by decide),
    C4_limit_clamping.2.2.2.1 50 (by decide) (by decide),
    C4_limit_clamping.2.2.2.2.1 ⟨.known .npm, "demo", .absent⟩ worldNpm21 timelineData21
      (Or.inl rfl) (by decide),
    C4_limit_clamping.2.2.2.2.2 ⟨.known .npm, "demo", .num 500⟩ worldNpm21 timelineData21full
      500 rfl (by decide) (by decide)⟩

/-! ## Sorted-ends lemmas for the frequency computation -/

/-- Antisymmetry of `≤` on the date timestamps. -/
instance : Std.Antisymm (fun (a b : Int) => a ≤ b) :=
  ⟨fun h1 h2 => le_antisymm h1 h2⟩

/-- The head of the ascending date sort is the minimum date. -/
theorem headD_sortDatesAsc {l : List Int} (hl : l ≠ []) :
    (sortDatesAsc l).headD 0 = (l.min?).getD 0 := by
  have hperm : List.Perm (sortDatesAsc l) l := List.perm_insertionSort _ _
  cases hs : sortDatesAsc l with
  | nil =>
    exact absurd (List.length_eq_zero.mp ((hperm.length_eq).symm.trans (by rw [hs]; rfl)))
      hl
  | cons d rest =>
    have hsort : List.Pairwise (· ≤ ·) (d :: rest) := by
      rw [← hs]; exact List.sorted_insertionSort _ _
    have hdl : d ∈ l := hperm.mem_iff.mp (by rw [hs]; exact List.mem_cons_self d rest)
    have hmin : ∀ x ∈ l, d ≤ x := by
      intro x hx
      have hxs : x ∈ d :: rest := by rw [← hs]; exact hperm.mem_iff.mpr hx
      rcases List.mem_cons.mp hxs with rfl | hxr
      · exact le_refl x
      · exact (List.pairwise_cons.mp hsort).1 x hxr
    have : l.min? = some d :=
      (List.min?_eq_some_iff (fun a => le_refl a) min_choice (fun _ _ _ => le_min_iff)).mpr
        ⟨hdl, hmin⟩
    rw [this]
    rfl

/-- The last element of the ascending date sort is the maximum date. -/
theorem getLastD_sortDatesAsc {l : List Int} (hl : l ≠ []) :
    (sortDatesAsc l).getLastD 0 = (l.max?).getD 0 := by
  have hperm : List.Perm (sortDatesAsc l) l := List.perm_insertionSort _ _
  have hsort : List.Pairwise (· ≤ ·) (sortDatesAsc l) := List.sorted_insertionSort _ _
  have hrev : List.Pairwise (fun a b : Int => b ≤ a) ((sortDatesAsc l).reverse) :=
    List.pairwise_reverse.mpr hsort
  rw [List.getLastD_eq_getLast?, List.getLast?_eq_head?_reverse]
  cases hs : (sortDatesAsc l).reverse with
  | nil =>
    have : sortDatesAsc l = [] := by
      have := congrArg List.reverse hs
      simpa using this
    exact absurd (List.length_eq_zero.mp ((hperm.length_eq).symm.trans (by rw [this]; rfl)))
      hl
  | cons m rest =>
    have hms : m ∈ sortDatesAsc l := by
      rw [← List.mem_reverse, hs]; exact List.mem_cons_self m rest
    have hml : m ∈ l := hperm.mem_iff.mp hms
    have hmax : ∀ x ∈ l, x ≤ m := by
      intro x hx
      have hxs : x ∈ m :: rest := by
        rw [← hs, List.mem_reverse]; exact hperm.mem_iff.mpr hx
      rcases List.mem_cons.mp hxs with rfl | hxr
      · exact le_refl x
      · exact (List.pairwise_cons.mp (hs ▸ hrev)).1 x hxr
    have : l.max? = some m :=
      (List.max?_eq_some_iff (fun a => le_refl a) max_choice (fun _ _ _ => max_le_iff)).mpr
        ⟨hml, hmax⟩
    rw [this]
    rfl

/-! ## C5: releases-per-year -/

/-- C5: `calculateReleasesPerYear` matches the spec's rule.  It returns
0 for fewer than two releases; otherwise, with `spanDays` the
whole-days span between the earliest and the latest release, it returns
`count / (spanDays/365)` when that span is at least a tenth of a year
(`mkRat spanDays 365` is exactly `spanDays / 365` as a rational) and
`count * 10` when it is smaller. -/
theorem C5_releases_per_year (dates : List Int) :
    calculateReleasesPerYear dates = specReleasesPerYear dates ∧
    (dates.length < 2 → calculateReleasesPerYear dates = 0) ∧
    (2 ≤ dates.length →
      (mkRat (daysBetween ((dates.min?).getD 0) ((dates.max?).getD 0)) 365 ≥ mkRat 1 10 →
        calculateReleasesPerYear dates =
          (dates.length : ℚ) /
            ((daysBetween ((dates.min?).getD 0) ((dates.max?).getD 0) : ℚ) / 365)) ∧
      (mkRat (daysBetween ((dates.min?).getD 0) ((dates.max?).getD 0)) 365 < mkRat 1 10 →
        calculateReleasesPerYear dates = (dates.length : ℚ) * 10)) := by
  by_cases hlen : dates.length < 2
  · refine ⟨?_, fun _ => ?_, fun h2 => absurd h2 (by omega)⟩
    · simp [calculateReleasesPerYear, specReleasesPerYear, hlen]
    · simp [calculateReleasesPerYear, hlen]
  · have hne : dates ≠ [] := by
      intro h
      rw [h] at hlen
      exact hlen (by simp)
    have hspan :
        daysBetween ((sortDatesAsc dates).headD 0) ((sortDatesAsc dates).getLastD 0) =
        daysBetween ((dates.min?).getD 0) ((dates.max?).getD 0) := by
      rw [headD_sortDatesAsc hne, getLastD_sortDatesAsc hne]
    set spanDays := daysBetween ((dates.min?).getD 0) ((dates.max?).getD 0) with hsd
    have hcond : (mkRat spanDays 365 < mkRat 1 10) ↔ ((spanDays : ℚ) / 365 < 0.1) := by
      rw [Rat.mkRat_eq_div, Rat.mkRat_eq_div]
      push_cast
      norm_num
    have hcode : calculateReleasesPerYear dates =
        if mkRat spanDays 365 < mkRat 1 10 then ((dates.length * 10 : ℕ) : ℚ)
        else mkRat (dates.length * 365) spanDays := by
      simp only [calculateReleasesPerYear, hlen, if_false]
      rw [hspan]
    refine ⟨?_, fun h => absurd h (by omega), fun _ => ⟨?_, ?_⟩⟩
    · rw [hcode]
      simp only [specReleasesPerYear, hlen, if_false, ← hsd]
      by_cases hc : mkRat spanDays 365 < mkRat 1 10
      · rw [if_pos hc, if_pos (hcond.mp hc)]
        push_cast
        ring
      · rw [if_neg hc, if_neg (fun hq => hc (hcond.mpr hq))]
        have hs0 : spanDays ≠ 0 := by
          intro h0
          exact hc (by rw [h0]; decide)
        rw [Rat.mkRat_eq_div]
        have : ((spanDays : ℚ)) ≠ 0 := by exact_mod_cast hs0
        field_simp
    · intro hge
      rw [hcode, if_neg (not_lt.mpr hge)]
      have hs0 : spanDays ≠ 0 := by
        intro h0
        rw [h0] at hge
        exact absurd hge (by decide)
      rw [Rat.mkRat_eq_div]
      have : ((spanDays : ℚ)) ≠ 0 := by exact_mod_cast hs0
      field_simp
    · intro hlt
      rw [hcode, if_pos hlt]
      push_cast
      ring

/-- C5 witness: the three branches at concrete date lists — a single
release (0), a two-release year-long history (count divided by the
span), and a two-release one-day history (count × 10). -/
theorem C5_releases_per_year_witness :
    calculateReleasesPerYear [0] = 0 ∧
    calculateReleasesPerYear [0, 31536000000] =
      ((([0, 31536000000] : List Int).length : ℚ) /
        ((daysBetween ((([0, 31536000000] : List Int).min?).getD 0)
            ((([0, 31536000000] : List Int).max?).getD 0) : ℚ) / 365)) ∧
    calculateReleasesPerYear [0, 86400000] = (([0, 86400000] : List Int).length : ℚ) * 10 :=
  ⟨(C5_releases_per_year [0]).2.1 (by decide),
   ((C5_releases_per_year [0, 31536000000]).2.2 (by decide)).1 (by decide),
   ((C5_releases_per_year [0, 86400000]).2.2 (by decide)).2 (by decide)⟩

/-! ## C6: repository URL normalization -/

/-- A take of a list is one of its prefixes. -/
theorem takeIsPre (k : Nat) (l : List Char) : l.take k <+: l :=
  ⟨l.drop k, List.take_append_drop k l⟩

/-- Applying the first-colon replacement to `"https://" ++ Y` yields a
list headed by `'h'`, so neither `"git://"` nor `"git@"` is a prefix of
it. -/
theorem rfcHttps_no_git_marks (Y : List Char) :
    ¬ gitSchemeMark <+: replaceFirstChar ':' '/' (httpsMark ++ Y) ∧
    ¬ gitAtMark <+: replaceFirstChar ':' '/' (httpsMark ++ Y) := by
  have hform : replaceFirstChar ':' '/' (httpsMark ++ Y) =
      'h' :: 't' :: 't' :: 'p' :: 's' :: '/' :: '/' :: '/' :: Y := by
    simp [httpsMark, replaceFirstChar]
  constructor
  · intro hp
    rw [hform] at hp
    simp only [gitSchemeMark] at hp
    exact absurd (List.cons_prefix_cons.mp hp).1 (by decide)
  · intro hp
    rw [hform] at hp
    simp only [gitAtMark] at hp
    exact absurd (List.cons_prefix_cons.mp hp).1 (by decide)

/-- The normalizer's output never starts with `"git://"`. -/
theorem normalizeRepoUrl_no_gitScheme (u : List Char) :
    ¬ gitSchemeMark <+: normalizeRepoUrl u := by
  have h2 : ¬ gitSchemeMark <+: rewriteGitScheme (stripGitPlus u) := by
    unfold rewriteGitScheme
    by_cases hc : gitSchemeMark <+: stripGitPlus u
    · rw [if_pos hc]
      intro hp
      simp only [gitSchemeMark, httpsMark, List.cons_append] at hp
      exact absurd (List.cons_prefix_cons.mp hp).1 (by decide)
    · rw [if_neg hc]
      exact hc
  have h3 : ¬ gitSchemeMark <+: stripDotGit (rewriteGitScheme (stripGitPlus u)) := by
    unfold stripDotGit
    by_cases hc : dotGitMark <:+ rewriteGitScheme (stripGitPlus u)
    · rw [if_pos hc]
      intro hp
      exact h2 (hp.trans (takeIsPre _ _))
    · rw [if_neg hc]
      exact h2
  show ¬ gitSchemeMark <+: rewriteSsh (stripDotGit (rewriteGitScheme (stripGitPlus u)))
  unfold rewriteSsh
  by_cases hc : gitAtMark <+: stripDotGit (rewriteGitScheme (stripGitPlus u))
  · rw [if_pos hc]
    exact (rfcHttps_no_git_marks _).1
  · rw [if_neg hc]
    exact h3

/-- The normalizer's output never starts with `"git@"`. -/
theorem normalizeRepoUrl_no_gitAt (u : List Char) :
    ¬ gitAtMark <+: normalizeRepoUrl u := by
  show ¬ gitAtMark <+: rewriteSsh (stripDotGit (rewriteGitScheme (stripGitPlus u)))
  unfold rewriteSsh
  by_cases hc : gitAtMark <+: stripDotGit (rewriteGitScheme (stripGitPlus u))
  · rw [if_pos hc]
    exact (rfcHttps_no_git_marks _).2
  · rw [if_neg hc]
    exact hc

/-- The normalizer fixes every list on which all four rewrite guards
fail. -/
theorem normalizeRepoUrl_fixed {r : List Char}
    (h1 : ¬ gitPlusMark <+: r) (h2 : ¬ gitSchemeMark <+: r)
    (h3 : ¬ dotGitMark <:+ r) (h4 : ¬ gitAtMark <+: r) :
    normalizeRepoUrl r = r := by
  unfold normalizeRepoUrl stripGitPlus rewriteGitScheme stripDotGit rewriteSsh
  rw [if_neg h1]
  rw [if_neg h2]
  rw [if_neg h3]
  rw [if_neg h4]

/-- C6, counterexample: normalization is not idempotent as stated — on
`"git+git+https://x"` the first pass strips only one `"git+"`, and a
second pass changes the result again.  (Two further failure modes,
forcing the amendment's other side conditions: a result that still ends
in `".git"`, e.g. from `"x.git.git"`, and the empty result of `".git"`,
which a second pass maps to `null`.) -/
theorem C6_counterexample :
    parseRepositoryUrl (some (.str "git+git+https://x")) = some "git+https://x" ∧
    parseRepositoryUrl (some (.str "git+https://x")) ≠ some "git+https://x" := by
  decide

/-- C6, amended: normalization is idempotent on every input whose
result is non-empty, does not still start with `"git+"`, and does not
still end with `".git"`. -/
theorem C6_amended (s r : String)
    (hp : parseRepositoryUrl (some (.str s)) = some r)
    (hne : r ≠ "") (hplus : ¬ gitPlusMark <+: r.toList)
    (hsuf : ¬ dotGitMark <:+ r.toList) :
    parseRepositoryUrl (some (.str r)) = some r := by
  simp only [parseRepositoryUrl] at hp
  by_cases hs0 : s = ""
  · simp [hs0] at hp
  · rw [if_neg hs0] at hp
    have hr : r = (normalizeRepoUrl s.toList).asString := (Option.some_inj.mp hp).symm
    have hrl : r.toList = normalizeRepoUrl s.toList := by
      rw [hr, List.toList_asString]
    simp only [parseRepositoryUrl]
    rw [if_neg hne, hrl,
      normalizeRepoUrl_fixed (hrl ▸ hplus) (normalizeRepoUrl_no_gitScheme s.toList)
        (hrl ▸ hsuf) (normalizeRepoUrl_no_gitAt s.toList),
      ← hrl, String.asString_toList]

/-- C6 witness: the amended idempotence at a concrete normalized URL. -/
theorem C6_amended_witness :
    parseRepositoryUrl (some (.str "https://github.com/a/b")) =
      some "https://github.com/a/b" :=
  C6_amended "git+https://github.com/a/b.git" "https://github.com/a/b"
    (by decide) (by decide) (by decide) (by decide)

/-! ## C7: PyPI per-version date selection -/

/-- The head of the ascending date sort is a member of, and a lower
bound of, the unsorted input. -/
theorem sortDatesAsc_head_least {l : List Int} {d : Int} {rest : List Int}
    (hs : sortDatesAsc l = d :: rest) : d ∈ l ∧ ∀ x ∈ l, d ≤ x := by
  have hperm : List.Perm (sortDatesAsc l) l := List.perm_insertionSort _ _
  have hsort : List.Pairwise (· ≤ ·) (d :: rest) := by
    rw [← hs]
    exact List.sorted_insertionSort _ _
  refine ⟨hperm.mem_iff.mp (by rw [hs]; exact List.mem_cons_self d rest), ?_⟩
  intro x hx
  have hxs : x ∈ d :: rest := by
    rw [← hs]
    exact hperm.mem_iff.mpr hx
  rcases List.mem_cons.mp hxs with rfl | hxr
  · exact le_refl x
  · exact (List.pairwise_cons.mp hsort).1 x hxr

/-- C7, counterexample: with two artifacts listed later-first, the
maintenance-signals path reports the later date 200 (it reads
`files[0]`), while the earliest — which the timeline path selects — is
100.  The claim that both paths select the earliest is false. -/
theorem C7_counterexample :
    ((fetchPypiMaintenanceSignals "demo" 0 (.ok pypiDocLaterFirst)).dataOf.map
        fun d => d.last_release_date) = some (some 200) ∧
    ((fetchPypiTimeline "demo" 20 (.ok pypiDocLaterFirst)).dataOf.map
        fun d => d.releases) = some [⟨"1.0.0", 100, false⟩] := by
  decide

/-- C7, amended: the release-timeline path selects the earliest of a
version's artifact timestamps (a member of the timestamp set bounding
it from below), while the maintenance-signals path uses the first
listed artifact's timestamp. -/
theorem C7_amended :
    (∀ (version : String) (files : List PypiFile) (e : ReleaseEntry),
        pypiTimelineEntry version files = some e →
        e.date ∈ files.filterMap fileDate ∧ ∀ d ∈ files.filterMap fileDate, e.date ≤ d) ∧
    (∀ files : List PypiFile, pypiMaintenanceDate files = files.head?.bind fileDate) := by
  constructor
  · intro version files e h
    simp only [pypiTimelineEntry] at h
    cases hs : sortDatesAsc (files.filterMap fileDate) with
    | nil => rw [hs] at h; simp at h
    | cons d rest =>
      rw [hs] at h
      have he : e = ⟨version, d, isPrerelease version⟩ := (Option.some_inj.mp h).symm
      obtain ⟨hmem, hle⟩ := sortDatesAsc_head_least hs
      rw [he]
      exact ⟨hmem, hle⟩
  · intro files
    cases files <;> rfl

/-- C7 witness: the amended selection rules at the concrete later-first
artifact list. -/
theorem C7_amended_witness :
    ((⟨"1.0.0", 100, false⟩ : ReleaseEntry).date ∈
      ([⟨none, some 200⟩, ⟨none, some 100⟩] : List PypiFile).filterMap fileDate) ∧
    pypiMaintenanceDate [⟨none, some 200⟩, ⟨none, some 100⟩] =
      ([⟨none, some 200⟩, ⟨none, some 100⟩] : List PypiFile).head?.bind fileDate :=
  ⟨(C7_amended.1 "1.0.0" [⟨none, some 200⟩, ⟨none, some 100⟩] ⟨"1.0.0", 100, false⟩
      (by decide)).1,
   C7_amended.2 [⟨none, some 200⟩, ⟨none, some 100⟩]⟩

/-! ## C8: 404 classification -/

/-- C8: on every ecosystem and every query type, an upstream HTTP 404
yields an INVALID_INPUT failure whose details carry the requested
(trimmed) package name and the ecosystem tag. -/
theorem C8_not_found (name : String) (hname : jsTrim name ≠ "") (w : World)
    (lim : JsLimit) (now : Int) :
    (w.npm = .error (.http 404) →
      notFoundEnvelope (packageSummary ⟨.known .npm, name⟩ w) (jsTrim name) "npm" ∧
      notFoundEnvelope (releaseTimeline ⟨.known .npm, name, lim⟩ w) (jsTrim name) "npm" ∧
      notFoundEnvelope (maintenanceSignals ⟨.known .npm, name⟩ now w) (jsTrim name) "npm") ∧
    (w.pypi = .error (.http 404) →
      notFoundEnvelope (packageSummary ⟨.known .pypi, name⟩ w) (jsTrim name) "pypi" ∧
      notFoundEnvelope (releaseTimeline ⟨.known .pypi, name, lim⟩ w) (jsTrim name) "pypi" ∧
      notFoundEnvelope (maintenanceSignals ⟨.known .pypi, name⟩ now w) (jsTrim name) "pypi") ∧
    (w.crates = .error (.http 404) →
      notFoundEnvelope (packageSummary ⟨.known .crates, name⟩ w) (jsTrim name) "crates" ∧
      notFoundEnvelope (releaseTimeline ⟨.known .crates, name, lim⟩ w) (jsTrim name) "crates" ∧
      notFoundEnvelope (maintenanceSignals ⟨.known .crates, name⟩ now w) (jsTrim name)
        "crates") := by
  refine ⟨fun hu => ⟨?_, ?_, ?_⟩, fun hu => ⟨?_, ?_, ?_⟩, fun hu => ⟨?_, ?_, ?_⟩⟩
  · simp [packageSummary, hname, fetchNpmSummary, hu, catchResponse, npmCatch,
      notFoundEnvelope, ApiResponse.errCode, ApiResponse.errDetails]
  · simp [releaseTimeline, hname, fetchNpmTimeline, hu, catchResponse, npmCatch,
      notFoundEnvelope, ApiResponse.errCode, ApiResponse.errDetails]
  · simp [maintenanceSignals, hname, fetchNpmMaintenanceSignals, hu, catchResponse, npmCatch,
      notFoundEnvelope, ApiResponse.errCode, ApiResponse.errDetails]
  · simp [packageSummary, hname, fetchPypiSummary, hu, catchResponse, pypiCatch,
      notFoundEnvelope, ApiResponse.errCode, ApiResponse.errDetails]
  · simp [releaseTimeline, hname, fetchPypiTimeline, hu, catchResponse, pypiCatch,
      notFoundEnvelope, ApiResponse.errCode, ApiResponse.errDetails]
  · simp [maintenanceSignals, hname, fetchPypiMaintenanceSignals, hu, catchResponse, pypiCatch,
      notFoundEnvelope, ApiResponse.errCode, ApiResponse.errDetails]
  · simp [packageSummary, hname, fetchCratesSummary, hu, catchResponse, cratesCatch,
      notFoundEnvelope, ApiResponse.errCode, ApiResponse.errDetails]
  · simp [releaseTimeline, hname, fetchCratesTimeline, hu, catchResponse, cratesCatch,
      notFoundEnvelope, ApiResponse.errCode, ApiResponse.errDetails]
  · simp [maintenanceSignals, hname, fetchCratesMaintenanceSignals, hu, catchResponse,
      cratesCatch, notFoundEnvelope, ApiResponse.errCode, ApiResponse.errDetails]

/-- C8 witness: concrete 404 envelopes for one query of each type,
one per ecosystem. -/
theorem C8_not_found_witness :
    notFoundEnvelope (packageSummary ⟨.known .npm, "left-pad"⟩ world404)
      (jsTrim "left-pad") "npm" ∧
    notFoundEnvelope (releaseTimeline ⟨.known .pypi, "left-pad", .absent⟩ world404)
      (jsTrim "left-pad") "pypi" ∧
    notFoundEnvelope (maintenanceSignals ⟨.known .crates, "left-pad"⟩ 0 world404)
      (jsTrim "left-pad") "crates" := by
  have h := C8_not_found "left-pad" (by decide) world404 .absent 0
  exact ⟨(h.1 rfl).1, (h.2.1 rfl).2.1, (h.2.2 rfl).2.2⟩

/-! ## C9: crates summary version/license mismatch -/

/-- C9: when a truthy `max_stable_version` differs from `max_version`,
the summary reports the stable version but takes the license from the
version record matching the raw `max_version` (and reports no license
when no record matches). -/
theorem C9_crates_license (name : String) (raw : CratesPackageResponse)
    (data : PackageSummary) (s : String)
    (hok : fetchCratesSummary name (.ok raw) = .ok data)
    (hs : raw.crate.max_stable_version = some s) (hne : s ≠ "")
    (hdiff : s ≠ raw.crate.max_version) :
    data.version = s ∧ data.version ≠ raw.crate.max_version ∧
    data.license =
      jsOrS ((raw.versions.find? fun v => v.num = raw.crate.max_version).bind
        fun v => v.license) none ∧
    ((raw.versions.find? fun v => v.num = raw.crate.max_version) = none →
      data.license = none) := by
  simp only [fetchCratesSummary, ApiResponse.ok.injEq] at hok
  have hver : data.version = s := by
    rw [← hok, hs]
    simp [jsOrS, hne]
  refine ⟨hver, by rw [hver]; exact hdiff, ?_, ?_⟩
  · rw [← hok]
  · intro hfind
    rw [← hok, hfind]
    rfl

/-- C9 witness: the mismatch at a concrete crates document whose
`max_version` is a beta carrying a different license than the stable
version. -/
theorem C9_crates_license_witness :
    cratesSummaryStable.version = "1.0.0" ∧
    cratesSummaryStable.version ≠ cratesDocStable.crate.max_version ∧
    cratesSummaryStable.license =
      jsOrS ((cratesDocStable.versions.find? fun v =>
        v.num = cratesDocStable.crate.max_version).bind fun v => v.license) none := by
  have h := C9_crates_license "demo" cratesDocStable cratesSummaryStable "1.0.0"
    (by decide) (by decide) (by decide) (by decide)
  exact ⟨h.1, h.2.1, h.2.2.1⟩

/-! ## C10: deprecation_message provenance -/

/-- C10: PyPI and crates.io maintenance signals never carry a
deprecation message (even when deprecated); npm's message, when
present, is exactly the `deprecated` marker of the latest version. -/
theorem C10_deprecation_message :
    (∀ (name : String) (now : Int) (upstream : Except FetchError PypiPackageResponse)
        (data : MaintenanceSignals),
        fetchPypiMaintenanceSignals name now upstream = .ok data →
        data.deprecation_message = none) ∧
    (∀ (name : String) (now : Int) (upstream : Except FetchError CratesPackageResponse)
        (data : MaintenanceSignals),
        fetchCratesMaintenanceSignals name now upstream = .ok data →
        data.deprecation_message = none) ∧
    (∀ (name : String) (now : Int) (raw : NpmPackageResponse) (data : MaintenanceSignals),
        fetchNpmMaintenanceSignals name now (.ok raw) = .ok data →
        data.deprecation_message = (npmDeprecation raw).2) := by
  refine ⟨?_, ?_, ?_⟩
  · intro name now upstream data h
    cases upstream with
    | error e => simp [fetchPypiMaintenanceSignals, catchResponse] at h
    | ok raw =>
      simp only [fetchPypiMaintenanceSignals, ApiResponse.ok.injEq] at h
      rw [← h]
      rfl
  · intro name now upstream data h
    cases upstream with
    | error e => simp [fetchCratesMaintenanceSignals, catchResponse] at h
    | ok raw =>
      simp only [fetchCratesMaintenanceSignals, ApiResponse.ok.injEq] at h
      rw [← h]
      rfl
  · intro name now raw data h
    simp only [fetchNpmMaintenanceSignals, ApiResponse.ok.injEq] at h
    rw [← h]
    rfl

/-- C10 witness: a crates document whose only version is yanked is
deprecated, yet its signals carry no deprecation message. -/
theorem C10_deprecation_message_witness :
    fetchCratesMaintenanceSignals "demo" 0 (.ok cratesDocYanked) = .ok cratesYankedSignals ∧
    cratesYankedSignals.is_deprecated = true ∧
    cratesYankedSignals.deprecation_message = none :=
  ⟨by decide, by decide,
   C10_deprecation_message.2.1 "demo" 0 (.ok cratesDocYanked) cratesYankedSignals (by decide)⟩

end PackageIntel
